import Mathlib

/-!
# Verification of reqmon (vne/reqmon)

Shallow embedding of `src/reqmon.js`, the dependency-tracking hot-reload
layer for Node.js.  The module-level mutable globals of `reqmon.js`
(`paths`, `ignore`, `timeouts`, `TIMEOUT`, `DEBUG`, `CONSOLE`,
`RELOAD_CHILDREN`) become an explicit state record threaded through the
operations; the external collaborators (the host's `require.resolve`,
the original `Module.prototype.require`, the `path` utilities) become an
environment record of oracle functions.  Side effects on the outside
world (invoking a pre-unload hook, evicting a cache entry, delegating to
the underlying loader, emitting bus events, opening a watcher) are
recorded in an explicit action trace, so that ordering claims can be
stated as facts about the trace.
-/

namespace Reqmon

/-- An element of the `ignore` list of `reqmon.js` (line 31 and
`reqmon_ignored`, lines 243-258).  The source distinguishes elements by
their `constructor`: `Array` (nested list), `Function` (predicate),
`RegExp` (pattern), and everything else compared by `===` (in practice a
string path).  Regular-expression matching and predicate calls are both
external collaborators; each is embedded as its match function
`String → Bool` but kept as a separate constructor so the source's
four-way branch is preserved. -/
inductive IgnoreElem where
  | str (s : String)
  | regex (test : String → Bool)
  | func (f : String → Bool)
  | arr (l : List IgnoreElem)

mutual

/-- One iteration body of the `for (var i in ignore)` loop of
`Module.prototype.reqmon_ignored` (reqmon.js lines 245-254): how a
single element of the ignore list is matched against `fpath`. -/
def elemMatches (fpath : String) : IgnoreElem → Bool
  | .arr l => reqmon_ignored fpath l
  | .func f => f fpath
  | .regex t => t fpath
  | .str s => s == fpath

/-- `Module.prototype.reqmon_ignored` (reqmon.js lines 243-258): walk
the ignore list in order, breaking out of the loop on the first
matching element (`if (match) break;`), and return whether a match was
found. -/
def reqmon_ignored (fpath : String) : List IgnoreElem → Bool
  | [] => false
  | e :: rest => if elemMatches fpath e then true else reqmon_ignored fpath rest

end

/-- The cooldown table `timeouts` of reqmon.js (line 32): file names
mapped to a pending `setTimeout` handle.  The timer deletes its own
entry `TIMEOUT` ms after insertion, so an entry inserted at instant
`t0` with cooldown `T` is observable exactly at instants `now < t0 + T`;
the table stores the expiry instant `t0 + T` and `timeoutActive`
realises the observation.  A re-insert for the same key shadows the
older entry, matching the JS assignment `timeouts[filename] = ...`. -/
def TimeoutTable := List (String × Nat)

/-- Truthiness of `timeouts[filename]` at instant `now`: the entry is
present iff its self-deleting timer has not yet fired. -/
def timeoutActive (tbl : TimeoutTable) (now : Nat) (filename : String) : Bool :=
  match tbl.lookup filename with
  | some expiry => decide (now < expiry)
  | none => false

/-- `Module.prototype.reqmon_timeoutFor` (reqmon.js lines 341-343):
`timeouts[filename] = setTimeout(function() { delete timeouts[filename]; }, TIMEOUT)`.
The stored value is the instant at which the timer will fire. -/
def reqmon_timeoutFor (tbl : TimeoutTable) (T now : Nat) (filename : String) :
    TimeoutTable :=
  (filename, now + T) :: tbl

/-- `Module.prototype.reqmon_file_has_changed` (reqmon.js lines 330-334):
return `false` while a cooldown entry for the file is alive; otherwise
install a fresh cooldown entry and return `true`. -/
def reqmon_file_has_changed (tbl : TimeoutTable) (T now : Nat) (filename : String) :
    Bool × TimeoutTable :=
  if timeoutActive tbl now filename then (false, tbl)
  else (true, reqmon_timeoutFor tbl T now filename)

/-- A file-watcher handle as returned by `fs.watch` and stored in the
`paths` table (reqmon.js line 296).  Only the open/closed status is
observable through the operations under study (`close()` at line 122
flips it). -/
structure Watcher where
  openW : Bool
deriving DecidableEq, Repr

/-- The exports object of a cached module (`require.cache[rpath].exports`).
`id` is an abstract identity distinguishing module values;
`hasUnloadHook` is the truthiness of the optional
`exports.reqmon_on_file_change` property tested at reqmon.js line 272. -/
structure Exports where
  id : Nat
  hasUnloadHook : Bool
deriving DecidableEq, Repr

/-- The four module-level configuration globals of reqmon.js
(lines 34-37). -/
structure Config where
  TIMEOUT : Nat
  DEBUG : Bool
  CONSOLE : Bool
  RELOAD_CHILDREN : Bool
deriving DecidableEq, Repr

/-- reqmon.js line 20. -/
def DEFAULT_TIMEOUT : Nat := 2000

/-- reqmon.js line 21. -/
def DEFAULT_DEBUG : Bool := false

/-- reqmon.js line 22. -/
def DEFAULT_CONSOLE : Bool := false

/-- reqmon.js line 23. -/
def DEFAULT_RELOAD_CHILDREN : Bool := false

/-- `Module.prototype.reqmon_defaults` (reqmon.js lines 348-353): reset
every configuration global to its default.  Note that in reqmon.js this
method is installed on the prototype but never invoked anywhere. -/
def reqmon_defaults (_ : Config) : Config :=
  { TIMEOUT := DEFAULT_TIMEOUT
    DEBUG := DEFAULT_DEBUG
    CONSOLE := DEFAULT_CONSOLE
    RELOAD_CHILDREN := DEFAULT_RELOAD_CHILDREN }

/-- The mutable module-level state of reqmon.js: the watcher table
`paths` (line 30, an insertion-ordered object, embedded as an
association list), the `ignore` list (line 31), the host's shared
`require.cache` (external, but read/written by the core, embedded as an
association list from canonical path to cached exports), the
configuration globals, and whether the prototype hook is installed
(`Module.prototype.reqmon_require` present). -/
structure RState where
  paths : List (String × Watcher)
  ignore : List IgnoreElem
  cache : List (String × Exports)
  config : Config
  hooked : Bool

/-- The external collaborators of the replacement loader, embedded as
oracle functions: whether the core module has a parent
(`module.parent`, truthy whenever reqmon was itself required), the
core's own canonical file (`module.filename`), the host resolver
(`require.resolve`; `none` embeds a thrown resolution error), the
`path.dirname` / `path.join` utilities, and the original
`Module.prototype.require` saved as `reqmon_require` (abstracted as a
function from the requested name to the exports it produces). -/
structure Env where
  moduleParent : Bool
  moduleFilename : String
  resolve : String → Option String
  dirname : String → String
  joinPath : String → String → String
  underlying : String → Exports

/-- Observable side effects of a loader call, in the order they are
performed: opening a watcher (`fs.watch`), invoking a module's
pre-unload hook, evicting a cache entry (`delete require.cache[rpath]`),
delegating to the saved original loader (`this.reqmon_require(name)`),
and the two event-bus emissions. -/
inductive Action where
  | monitor (p : String)
  | unloadHook (p : String)
  | evict (p : String)
  | underlyingLoad (name : String)
  | emitChange (p : String)
  | emitLoaded (p : String) (e : Exports)
deriving DecidableEq, Repr

/-- Which terminal statement of the replacement `require` produced the
returned value: a delegation `return this.reqmon_require(name)`, a
cache hit `return require.cache[rpath].exports`, or a forced load
`return this.reqmon_load(rpath)`. -/
inductive ReqOutcome where
  | delegate (name : String)
  | cached (rpath : String)
  | loaded (rpath : String)
deriving DecidableEq, Repr

/-- Result of one call of the replacement `require`: the value returned
to the caller, the terminal statement that produced it, the state after
the call, and the trace of observable actions, in order. -/
structure ReqResult where
  ret : Exports
  outcome : ReqOutcome
  st : RState
  trace : List Action

/-- `delete require.cache[rpath]` (reqmon.js line 275). -/
def eraseKey (cache : List (String × Exports)) (rpath : String) :
    List (String × Exports) :=
  cache.filter (fun kv => kv.1 != rpath)

/-- Stand-in for the `TypeError` the source would raise on reading
`.exports` of an absent cache entry; the branches that read the cache
only do so when the entry is known present (the core itself is in the
cache while it executes, and the cache-hit branch checks presence
first). -/
def undefinedExports : Exports :=
  { id := 0, hasUnloadHook := false }

/-- `require.cache[rpath].exports` (reqmon.js lines 209 and 220). -/
def cacheExports (st : RState) (rpath : String) : Exports :=
  (st.cache.lookup rpath).getD undefinedExports

/-- The name-rewriting prologue of the replacement `require`
(reqmon.js lines 180-190, minus the early untracked-parent return):
when the core has a parent and the requested name is relative
(`fpath.indexOf('.') === 0`, a first-character test), rebase it onto
the directory of the requiring module,
`path.join(path.dirname(this.filename), fpath)`. -/
def rewriteName (env : Env) (thisFilename fpath : String) : String :=
  if env.moduleParent && (fpath.data.head? == some '.') then
    env.joinPath (env.dirname thisFilename) fpath
  else fpath

/-- `Module.prototype.reqmon_monitor` (reqmon.js lines 292-299): no-op
when the path is already in the watcher table, otherwise open a watcher
(`fs.watch`) and store its handle under the path (object-key insertion
order: appended at the end). -/
def reqmon_monitor (st : RState) (rpath : String) : RState × List Action :=
  if (st.paths.lookup rpath).isSome then (st, [])
  else ({ st with paths := st.paths ++ [(rpath, { openW := true })] },
        [Action.monitor rpath])

/-- `Module.prototype.reqmon_load` (reqmon.js lines 270-280): invoke the
cached module's `reqmon_on_file_change` hook when present, delete the
cache entry, delegate to the saved original loader (which re-executes
the module and repopulates the cache entry with the fresh exports —
embedded as its net effect), emit `loaded` with the path and the fresh
value, and return the fresh value. -/
def reqmon_load (env : Env) (st : RState) (rpath : String) :
    Exports × RState × List Action :=
  let hookTrace :=
    match st.cache.lookup rpath with
    | some e => if e.hasUnloadHook then [Action.unloadHook rpath] else []
    | none => []
  let st1 := { st with cache := eraseKey st.cache rpath }
  let mod := env.underlying rpath
  let st2 := { st1 with cache := (rpath, mod) :: st1.cache }
  (mod, st2,
    hookTrace ++
      [Action.evict rpath, Action.underlyingLoad rpath,
       Action.emitLoaded rpath mod])

/-- The replacement `Module.prototype.require` (reqmon.js lines
176-229), with `thisFilename` the canonical path of the requiring
module (`this.filename`) and `fpath` the requested name.  The branches,
in source order:
1. lines 181-190 — when the core has a parent and the requiring module
   is not in the watcher table, delegate the original name unmodified;
   otherwise rebase a relative name (`rewriteName`);
2. lines 192-198 — resolve; on a resolution error delegate the
   original, unrewritten name;
3. lines 200-203 — ignore check against the current ignore list;
   delegate the rewritten name;
4. lines 205-210 — self-guard: the core's own path is answered from the
   cache (note: no configuration reset is performed here);
5. line 213 — a resolved path not starting with `/` is delegated with
   the original name;
6. line 220 — cache hit while `RELOAD_CHILDREN` is off: return the
   cached exports;
7. lines 222-228 — establish monitoring, then force the load. -/
def reqmonRequire (env : Env) (st : RState) (thisFilename fpath : String) :
    ReqResult :=
  if env.moduleParent && (st.paths.lookup thisFilename).isNone then
    { ret := env.underlying fpath, outcome := .delegate fpath, st := st,
      trace := [Action.underlyingLoad fpath] }
  else
    let mfpath := rewriteName env thisFilename fpath
    match env.resolve mfpath with
    | none =>
      { ret := env.underlying fpath, outcome := .delegate fpath, st := st,
        trace := [Action.underlyingLoad fpath] }
    | some rpath =>
      if reqmon_ignored rpath st.ignore then
        { ret := env.underlying mfpath, outcome := .delegate mfpath, st := st,
          trace := [Action.underlyingLoad mfpath] }
      else if rpath == env.moduleFilename then
        { ret := cacheExports st rpath, outcome := .cached rpath, st := st,
          trace := [] }
      else if !(rpath.data.head? == some '/') then
        { ret := env.underlying fpath, outcome := .delegate fpath, st := st,
          trace := [Action.underlyingLoad fpath] }
      else if !st.config.RELOAD_CHILDREN && (st.cache.lookup rpath).isSome then
        { ret := cacheExports st rpath, outcome := .cached rpath, st := st,
          trace := [] }
      else
        let m := reqmon_monitor st rpath
        let l := reqmon_load env m.1 rpath
        { ret := l.1, outcome := .loaded rpath, st := l.2.1,
          trace := m.2 ++ l.2.2 }

/-- `reqmon.unwatch` (reqmon.js lines 120-138):
`Object.keys(paths).map(function(x) { paths[x].close() })` closes every
stored watcher in place; the remaining statements restore the original
`Module.prototype.require` and delete the helper methods (embedded as
`hooked := false`).  No statement removes keys from `paths`. -/
def reqmon_unwatch (st : RState) : RState :=
  { st with
    paths := st.paths.map (fun kv => (kv.1, { openW := false })),
    hooked := false }

/-- `reqmon.list` (reqmon.js lines 111-113): `Object.keys(paths)`, the
stored paths in insertion order. -/
def reqmon_list (st : RState) : List String :=
  st.paths.map Prod.fst

/-- `reqmon.ignore` (reqmon.js lines 94-104), as a function from the
previous value of the `ignore` global and the argument list to the new
value of the global.  Arguments are JS values, so `Option` embeds the
possibility of `null`: `none` is the `null` reset sentinel tested by
`list[0] === null`.  A leading `null` empties the list and is shifted
off; then, when arguments remain, they are appended. -/
def reqmon_ignore (prior args : List (Option IgnoreElem)) :
    List (Option IgnoreElem) :=
  match args with
  | none :: rest =>
    if rest.length > 0 then ([] : List (Option IgnoreElem)) ++ rest
    else []
  | _ => if args.length > 0 then prior ++ args else prior

/-- Default configuration record, as after module initialisation
(reqmon.js lines 34-37). -/
def cfg0 : Config :=
  { TIMEOUT := 2000, DEBUG := false, CONSOLE := false, RELOAD_CHILDREN := false }

/-- An open watcher handle. -/
def wOpen : Watcher := { openW := true }

/-- A concrete cached module value without a pre-unload hook. -/
def expA : Exports := { id := 1, hasUnloadHook := false }

/-- A concrete state with one monitored path, used to evaluate teardown
at a concrete input. -/
def stC1 : RState :=
  { paths := [("/w/a.js", wOpen)], ignore := [], cache := [],
    config := cfg0, hooked := true }

/-- A concrete collaborator environment: reqmon has a parent, its own
file is `/proj/reqmon.js`, the resolver knows the rebased dependency
name and the core's package name, and the underlying loader produces a
fixed fresh value. -/
def envW : Env :=
  { moduleParent := true
    moduleFilename := "/proj/reqmon.js"
    resolve := fun s =>
      if s == "/w/./dep.js" then some "/w/dep.js"
      else if s == "reqmon" then some "/proj/reqmon.js"
      else none
    dirname := fun s => if s == "/w/main.js" then "/w" else "/"
    joinPath := fun a b => a ++ "/" ++ b
    underlying := fun _ => { id := 9, hasUnloadHook := false } }

/-- A concrete state in which the requiring module `/w/main.js` is
tracked. -/
def stTrk : RState :=
  { paths := [("/w/main.js", wOpen)], ignore := [], cache := [],
    config := cfg0, hooked := true }

/-- `stTrk` with the dependency `/w/dep.js` already in the shared
cache. -/
def stC10 : RState :=
  { paths := [("/w/main.js", wOpen)], ignore := [],
    cache := [("/w/dep.js", expA)], config := cfg0, hooked := true }

/-- A concrete state with non-default configuration (after
`timeout(5000).debug(true)`) and the core itself sitting in the shared
cache, as it does while it executes. -/
def stC2 : RState :=
  { paths := [("/w/main.js", wOpen)], ignore := [],
    cache := [("/proj/reqmon.js", { id := 7, hasUnloadHook := false })],
    config := { TIMEOUT := 5000, DEBUG := true, CONSOLE := false,
                RELOAD_CHILDREN := false },
    hooked := true }

end Reqmon

namespace Reqmon

/-- Looking a key up past a prefix that does not contain it. -/
theorem lookup_append_of_none {β : Type} (l1 l2 : List (String × β))
    (k : String) (h : l1.lookup k = none) :
    (l1 ++ l2).lookup k = l2.lookup k := by
  induction l1 with
  | nil => rfl
  | cons a l ih =>
    obtain ⟨ka, b⟩ := a
    rw [List.cons_append]
    by_cases hk : k == ka
    · simp [List.lookup, hk] at h
    · simp only [List.lookup, hk] at h ⊢
      exact ih h

/-- After `reqmon_monitor st p`, the path `p` has an entry in the
watcher table. -/
theorem monitor_lookup_isSome (st : RState) (p : String) :
    ((reqmon_monitor st p).1.paths.lookup p).isSome = true := by
  unfold reqmon_monitor
  by_cases h : (st.paths.lookup p).isSome
  · simp [h]
  · have hn : st.paths.lookup p = none := by
      cases hv : st.paths.lookup p
      · rfl
      · exact absurd (by simp [hv]) h
    simp only [h, if_false, Bool.false_eq_true]
    rw [lookup_append_of_none _ _ _ hn]
    simp [List.lookup]

/-- Monitoring a fresh path stores an open watcher under it. -/
theorem monitor_lookup_fresh (st : RState) (p : String)
    (h : st.paths.lookup p = none) :
    (reqmon_monitor st p).1.paths.lookup p = some { openW := true } := by
  unfold reqmon_monitor
  rw [h]
  simp only [Option.isSome_none, Bool.false_eq_true, if_false]
  rw [lookup_append_of_none _ _ _ h]
  simp [List.lookup]

/-- C1, counterexample: in the state `stC1` with one monitored path,
`unwatch()` does not leave `list()` empty — `reqmon.unwatch`
(reqmon.js lines 120-138) closes every stored watcher but contains no
statement clearing `paths`, so the claimed "the set is cleared, so
list() afterwards returns the empty sequence" fails. -/
theorem c1_list_after_unwatch_not_empty :
    ¬ reqmon_list (reqmon_unwatch stC1) = [] := by decide

/-- C1 (amended): `unwatch()` closes every stored watcher, but the
Tracked-Path Set is not cleared: `list()` afterwards returns the same
sequence of paths as before, not the empty sequence (so after teardown
a path can be a key without a live watcher).  During operation,
monitoring a fresh path does store a live watcher under it. -/
theorem c1_unwatch_closes_watchers_but_keeps_keys (st : RState) :
    reqmon_list (reqmon_unwatch st) = reqmon_list st ∧
    (∀ p w, (p, w) ∈ (reqmon_unwatch st).paths → w.openW = false) ∧
    (∀ p, st.paths.lookup p = none →
      (reqmon_monitor st p).1.paths.lookup p = some { openW := true }) := by
  refine ⟨?_, ?_, ?_⟩
  · show (st.paths.map fun kv => (kv.1, ({ openW := false } : Watcher))).map
        Prod.fst = st.paths.map Prod.fst
    rw [List.map_map]
    exact List.map_congr_left fun kv _ => rfl
  · intro p w hmem
    simp only [reqmon_unwatch, List.mem_map] at hmem
    obtain ⟨kv, _, heq⟩ := hmem
    cases heq
    rfl
  · intro p h
    exact monitor_lookup_fresh st p h

/-- C1, witness for the amended statement at the concrete state
`stC1`. -/
theorem c1_unwatch_witness :
    reqmon_list (reqmon_unwatch stC1) = reqmon_list stC1 ∧
    (Watcher.mk false).openW = false ∧
    (reqmon_monitor stC1 "/w/new.js").1.paths.lookup "/w/new.js" =
      some { openW := true } :=
  ⟨(c1_unwatch_closes_watchers_but_keeps_keys stC1).1,
   (c1_unwatch_closes_watchers_but_keeps_keys stC1).2.1 "/w/a.js"
     (Watcher.mk false) (by decide),
   (c1_unwatch_closes_watchers_but_keeps_keys stC1).2.2 "/w/new.js"
     (by decide)⟩

/-- C2: evaluating the replacement loader at a self-load request.  In
the state `stC2` (cooldown 5000 ms, debug on) a tracked module requests
`reqmon`, which resolves to the core's own file.  The loader answers
from the cache as claimed, but the configuration is left at
`TIMEOUT = 5000`, `DEBUG = true`: the branch at reqmon.js lines 205-210
never invokes `reqmon_defaults`, although its comment announces "reset
options to defaults" and the sibling implementation
(src/unnamed/part_000 lines 82-88) calls `this.reqmon_defaults()`
there. -/
theorem c2_self_guard_skips_defaults_reset :
    (reqmonRequire envW stC2 "/w/main.js" "reqmon").outcome =
      ReqOutcome.cached "/proj/reqmon.js" ∧
    (reqmonRequire envW stC2 "/w/main.js" "reqmon").ret =
      { id := 7, hasUnloadHook := false } ∧
    (reqmonRequire envW stC2 "/w/main.js" "reqmon").st.config = stC2.config ∧
    stC2.config.TIMEOUT = 5000 ∧
    (reqmon_defaults stC2.config).TIMEOUT = 2000 ∧
    ¬ stC2.config = reqmon_defaults stC2.config :=
  ⟨by decide, by decide, by decide, rfl, rfl, by decide⟩

/-- C3: in every call of the replacement loader that reaches the load
step (tracked or top-level caller, resolvable name, not ignored, not
the core itself, absolute path, no cache-hit short-circuit), the call
equals `reqmon_monitor` run first on the incoming state followed by
`reqmon_load` run on the monitored state, the trace lists the monitor
action before every load action, the state handed to the load already
has a watcher entry for the path, the load never removes watcher
entries, and the path is still watched in the final state — so
registration precedes recursive loads and survives a failing load. -/
theorem c3_monitor_established_before_load (env : Env) (st : RState)
    (thisFilename fpath rpath : String)
    (h1 : env.moduleParent = true → (st.paths.lookup thisFilename).isSome = true)
    (h2 : env.resolve (rewriteName env thisFilename fpath) = some rpath)
    (h3 : reqmon_ignored rpath st.ignore = false)
    (h4 : (rpath == env.moduleFilename) = false)
    (h5 : (rpath.data.head? == some '/') = true)
    (h6 : (!st.config.RELOAD_CHILDREN && (st.cache.lookup rpath).isSome) = false) :
    reqmonRequire env st thisFilename fpath =
      { ret := (reqmon_load env (reqmon_monitor st rpath).1 rpath).1,
        outcome := ReqOutcome.loaded rpath,
        st := (reqmon_load env (reqmon_monitor st rpath).1 rpath).2.1,
        trace := (reqmon_monitor st rpath).2 ++
          (reqmon_load env (reqmon_monitor st rpath).1 rpath).2.2 } ∧
    ((reqmon_monitor st rpath).1.paths.lookup rpath).isSome = true ∧
    (reqmon_load env (reqmon_monitor st rpath).1 rpath).2.1.paths =
      (reqmon_monitor st rpath).1.paths ∧
    ((reqmonRequire env st thisFilename fpath).st.paths.lookup rpath).isSome = true := by
  have hcond : (env.moduleParent && (st.paths.lookup thisFilename).isNone) = false := by
    cases hmp : env.moduleParent
    · rfl
    · cases hv : st.paths.lookup thisFilename
      · have hs := h1 hmp
        rw [hv] at hs
        exact absurd hs (by decide)
      · simp [hv]
  have hmain : reqmonRequire env st thisFilename fpath =
      { ret := (reqmon_load env (reqmon_monitor st rpath).1 rpath).1,
        outcome := ReqOutcome.loaded rpath,
        st := (reqmon_load env (reqmon_monitor st rpath).1 rpath).2.1,
        trace := (reqmon_monitor st rpath).2 ++
          (reqmon_load env (reqmon_monitor st rpath).1 rpath).2.2 } := by
    simp only [reqmonRequire, hcond, h2, h3, h4, h5, h6, Bool.false_eq_true,
      if_false, Bool.not_true]
  refine ⟨hmain, monitor_lookup_isSome st rpath, rfl, ?_⟩
  rw [hmain]
  exact monitor_lookup_isSome st rpath

/-- C3, witness at the concrete tracked caller `/w/main.js` requesting
`./dep.js`. -/
theorem c3_load_branch_witness :
    ((reqmon_monitor stTrk "/w/dep.js").1.paths.lookup "/w/dep.js").isSome = true ∧
    ((reqmonRequire envW stTrk "/w/main.js" "./dep.js").st.paths.lookup
      "/w/dep.js").isSome = true :=
  ⟨(c3_monitor_established_before_load envW stTrk "/w/main.js" "./dep.js"
      "/w/dep.js" (fun _ => by decide) (by decide) (by decide) (by decide)
      (by decide) (by decide)).2.1,
   (c3_monitor_established_before_load envW stTrk "/w/main.js" "./dep.js"
      "/w/dep.js" (fun _ => by decide) (by decide) (by decide) (by decide)
      (by decide) (by decide)).2.2.2⟩

/-- C7: when the resolver cannot canonicalize the (possibly rewritten)
name of a call that got past the propagation gate, the replacement
loader returns the underlying loader's answer for the original,
unrewritten name, leaves the state untouched, and surfaces no error of
its own — the trace holds exactly the one delegation. -/
theorem c7_resolution_failure_falls_back (env : Env) (st : RState)
    (thisFilename fpath : String)
    (h1 : env.moduleParent = true → (st.paths.lookup thisFilename).isSome = true)
    (h2 : env.resolve (rewriteName env thisFilename fpath) = none) :
    reqmonRequire env st thisFilename fpath =
      { ret := env.underlying fpath, outcome := ReqOutcome.delegate fpath,
        st := st, trace := [Action.underlyingLoad fpath] } := by
  have hcond : (env.moduleParent && (st.paths.lookup thisFilename).isNone) = false := by
    cases hmp : env.moduleParent
    · rfl
    · cases hv : st.paths.lookup thisFilename
      · have hs := h1 hmp
        rw [hv] at hs
        exact absurd hs (by decide)
      · simp [hv]
  simp only [reqmonRequire, hcond, h2, Bool.false_eq_true, if_false]

/-- C7, witness: the tracked caller requests `./missing.js`, whose
rebased form `/w/./missing.js` the concrete resolver rejects. -/
theorem c7_fallback_witness :
    reqmonRequire envW stTrk "/w/main.js" "./missing.js" =
      { ret := envW.underlying "./missing.js",
        outcome := ReqOutcome.delegate "./missing.js", st := stTrk,
        trace := [Action.underlyingLoad "./missing.js"] } :=
  c7_resolution_failure_falls_back envW stTrk "/w/main.js" "./missing.js"
    (fun _ => by decide) (by decide)

/-- C8: a call with a parent context whose requiring module is not in
the Tracked-Path Set is delegated immediately and unmodified to the
underlying loader, with the whole state — in particular the
Tracked-Path Set — unchanged, whatever the ignore list holds. -/
theorem c8_untracked_caller_delegates (env : Env) (st : RState)
    (thisFilename fpath : String)
    (h1 : env.moduleParent = true)
    (h2 : st.paths.lookup thisFilename = none) :
    reqmonRequire env st thisFilename fpath =
      { ret := env.underlying fpath, outcome := ReqOutcome.delegate fpath,
        st := st, trace := [Action.underlyingLoad fpath] } ∧
    (reqmonRequire env st thisFilename fpath).st.paths = st.paths := by
  have hcond : (env.moduleParent && (st.paths.lookup thisFilename).isNone) = true := by
    rw [h1, h2]
    rfl
  constructor
  · simp only [reqmonRequire, hcond, if_true]
  · simp only [reqmonRequire, hcond, if_true]

/-- C8, witness: the untracked module `/u/other.js` requests `./c.js`;
the call is delegated unmodified and tracking is unchanged. -/
theorem c8_untracked_witness :
    reqmonRequire envW stTrk "/u/other.js" "./c.js" =
      { ret := envW.underlying "./c.js",
        outcome := ReqOutcome.delegate "./c.js", st := stTrk,
        trace := [Action.underlyingLoad "./c.js"] } ∧
    (reqmonRequire envW stTrk "/u/other.js" "./c.js").st.paths = stTrk.paths :=
  c8_untracked_caller_delegates envW stTrk "/u/other.js" "./c.js" rfl
    (by decide)

/-- C10: with the reload-children flag off and the resolved path
already in the shared cache (for a request that reaches the cache-hit
check), the replacement loader returns the cached exports and leaves
the state — in particular the Tracked-Path Set — unchanged, with an
empty action trace: the path is neither added to tracking nor
watched. -/
theorem c10_cached_child_not_tracked (env : Env) (st : RState)
    (thisFilename fpath rpath : String) (e : Exports)
    (h1 : env.moduleParent = true → (st.paths.lookup thisFilename).isSome = true)
    (h2 : env.resolve (rewriteName env thisFilename fpath) = some rpath)
    (h3 : reqmon_ignored rpath st.ignore = false)
    (h4 : (rpath == env.moduleFilename) = false)
    (h5 : (rpath.data.head? == some '/') = true)
    (h6 : st.config.RELOAD_CHILDREN = false)
    (h7 : st.cache.lookup rpath = some e) :
    reqmonRequire env st thisFilename fpath =
      { ret := e, outcome := ReqOutcome.cached rpath, st := st, trace := [] } ∧
    (reqmonRequire env st thisFilename fpath).st.paths = st.paths := by
  have hcond : (env.moduleParent && (st.paths.lookup thisFilename).isNone) = false := by
    cases hmp : env.moduleParent
    · rfl
    · cases hv : st.paths.lookup thisFilename
      · have hs := h1 hmp
        rw [hv] at hs
        exact absurd hs (by decide)
      · simp [hv]
  have hhit : (!st.config.RELOAD_CHILDREN && (st.cache.lookup rpath).isSome) = true := by
    rw [h6, h7]
    rfl
  have hret : cacheExports st rpath = e := by
    unfold cacheExports
    rw [h7]
    rfl
  have hmain : reqmonRequire env st thisFilename fpath =
      { ret := e, outcome := ReqOutcome.cached rpath, st := st, trace := [] } := by
    simp only [reqmonRequire, hcond, h2, h3, h4, h5, hhit, hret,
      Bool.false_eq_true, if_false, Bool.not_true, if_true]
  refine ⟨hmain, ?_⟩
  rw [hmain]

/-- C10, witness: the tracked caller requests `./dep.js` while
`/w/dep.js` is already cached and reload-children is off. -/
theorem c10_cached_witness :
    reqmonRequire envW stC10 "/w/main.js" "./dep.js" =
      { ret := expA, outcome := ReqOutcome.cached "/w/dep.js", st := stC10,
        trace := [] } ∧
    (reqmonRequire envW stC10 "/w/main.js" "./dep.js").st.paths = stC10.paths :=
  c10_cached_child_not_tracked envW stC10 "/w/main.js" "./dep.js" "/w/dep.js"
    expA (fun _ => by decide) (by decide) (by decide) (by decide) (by decide)
    rfl (by decide)

/-- A cooldown entry freshly installed at `now` is observable at `now2`
exactly while the cooldown has not elapsed. -/
theorem timeoutFor_active (tbl : TimeoutTable) (T now now2 : Nat) (p : String) :
    timeoutActive (reqmon_timeoutFor tbl T now p) now2 p =
      decide (now2 < now + T) := by
  simp [timeoutActive, reqmon_timeoutFor, List.lookup]

/-- C4: the debounce gate suppresses a signal exactly while an
unexpired cooldown entry exists, otherwise installs an entry that
expires after the configured cooldown and accepts; hence, from a state
with no live entry, of two signals closer than the cooldown only the
first is accepted, and of two signals farther apart than the cooldown
both are. -/
theorem c4_debounce_gate (T : Nat) (p : String) :
    (∀ tbl now, timeoutActive tbl now p = true →
        reqmon_file_has_changed tbl T now p = (false, tbl)) ∧
    (∀ tbl now, timeoutActive tbl now p = false →
        reqmon_file_has_changed tbl T now p =
          (true, reqmon_timeoutFor tbl T now p)) ∧
    (∀ tbl now now2, timeoutActive (reqmon_timeoutFor tbl T now p) now2 p =
        decide (now2 < now + T)) ∧
    (∀ tbl t1 t2, timeoutActive tbl t1 p = false → t1 ≤ t2 → t2 - t1 < T →
        (reqmon_file_has_changed tbl T t1 p).1 = true ∧
        (reqmon_file_has_changed (reqmon_file_has_changed tbl T t1 p).2
          T t2 p).1 = false) ∧
    (∀ tbl t1 t2, timeoutActive tbl t1 p = false → T < t2 - t1 →
        (reqmon_file_has_changed tbl T t1 p).1 = true ∧
        (reqmon_file_has_changed (reqmon_file_has_changed tbl T t1 p).2
          T t2 p).1 = true) := by
  refine ⟨?_, ?_, fun tbl now now2 => timeoutFor_active tbl T now now2 p, ?_, ?_⟩
  · intro tbl now h
    simp [reqmon_file_has_changed, h]
  · intro tbl now h
    simp [reqmon_file_has_changed, h]
  · intro tbl t1 t2 h hle hlt
    have h2 : (reqmon_file_has_changed tbl T t1 p).2 =
        reqmon_timeoutFor tbl T t1 p := by
      simp [reqmon_file_has_changed, h]
    have hact : timeoutActive (reqmon_timeoutFor tbl T t1 p) t2 p = true := by
      rw [timeoutFor_active]
      simp only [decide_eq_true_eq]
      omega
    refine ⟨by simp [reqmon_file_has_changed, h], ?_⟩
    rw [h2]
    simp [reqmon_file_has_changed, hact]
  · intro tbl t1 t2 h hgt
    have h2 : (reqmon_file_has_changed tbl T t1 p).2 =
        reqmon_timeoutFor tbl T t1 p := by
      simp [reqmon_file_has_changed, h]
    have hact : timeoutActive (reqmon_timeoutFor tbl T t1 p) t2 p = false := by
      rw [timeoutFor_active]
      simp only [decide_eq_false_iff_not]
      omega
    refine ⟨by simp [reqmon_file_has_changed, h], ?_⟩
    rw [h2]
    simp [reqmon_file_has_changed, hact]

/-- C4, witness: cooldown 500 ms, signals at 1000 and 1100 give one
acceptance; a further signal at 1600 is accepted again. -/
theorem c4_debounce_witness :
    (reqmon_file_has_changed [] 500 1000 "/d.js").1 = true ∧
    (reqmon_file_has_changed (reqmon_file_has_changed [] 500 1000 "/d.js").2
      500 1100 "/d.js").1 = false ∧
    (reqmon_file_has_changed (reqmon_file_has_changed [] 500 1000 "/d.js").2
      500 1600 "/d.js").1 = true :=
  ⟨((c4_debounce_gate 500 "/d.js").2.2.2.1 [] 1000 1100 (by decide) (by decide)
      (by decide)).1,
   ((c4_debounce_gate 500 "/d.js").2.2.2.1 [] 1000 1100 (by decide) (by decide)
      (by decide)).2,
   ((c4_debounce_gate 500 "/d.js").2.2.2.2 [] 1000 1600 (by decide)
      (by decide)).2⟩

/-- The loop of `reqmon_ignored` reports a match exactly when some
element of the list matches. -/
theorem ignored_iff_exists (fpath : String) (l : List IgnoreElem) :
    reqmon_ignored fpath l = true ↔ ∃ e ∈ l, elemMatches fpath e = true := by
  induction l with
  | nil => simp [reqmon_ignored]
  | cons e rest ih =>
    cases h : elemMatches fpath e with
    | true =>
      constructor
      · intro _
        exact ⟨e, List.mem_cons_self e rest, h⟩
      · intro _
        simp [reqmon_ignored, h]
    | false =>
      constructor
      · intro hr
        simp only [reqmon_ignored, h, Bool.false_eq_true, if_false] at hr
        obtain ⟨x, hx, hm⟩ := ih.mp hr
        exact ⟨x, List.mem_cons_of_mem e hx, hm⟩
      · intro ⟨x, hx, hm⟩
        simp only [reqmon_ignored, h, Bool.false_eq_true, if_false]
        cases List.mem_cons.mp hx with
        | inl heq =>
          rw [heq] at hm
          rw [hm] at h
          cases h
        | inr htl => exact ih.mpr ⟨x, htl, hm⟩

/-- C5: the Ignore Matcher returns true exactly when some element of
the list matches; it short-circuits (a matching head decides the
result); and a single element matches by recursion for a nested list,
by a truthy call for a predicate, by pattern satisfaction for a
pattern, and by exact equality otherwise. -/
theorem c5_ignore_matcher_semantics (fpath : String) :
    (∀ l, reqmon_ignored fpath l = true ↔ ∃ e ∈ l, elemMatches fpath e = true) ∧
    (∀ e rest, elemMatches fpath e = true →
        reqmon_ignored fpath (e :: rest) = true) ∧
    (∀ l, elemMatches fpath (IgnoreElem.arr l) = reqmon_ignored fpath l) ∧
    (∀ f, elemMatches fpath (IgnoreElem.func f) = f fpath) ∧
    (∀ t, elemMatches fpath (IgnoreElem.regex t) = t fpath) ∧
    (∀ s, elemMatches fpath (IgnoreElem.str s) = (s == fpath)) := by
  refine ⟨ignored_iff_exists fpath, ?_, fun _ => rfl, fun _ => rfl,
    fun _ => rfl, fun _ => rfl⟩
  intro e rest h
  simp [reqmon_ignored, h]

/-- C5, witness: a nested list whose inner element is an exact string
match is found, short-circuiting at the head. -/
theorem c5_matcher_witness :
    reqmon_ignored "/w/x.js"
      [IgnoreElem.arr [IgnoreElem.str "/w/x.js"], IgnoreElem.str "/other"] =
      true ∧
    elemMatches "/w/x.js" (IgnoreElem.str "/w/x.js") =
      ("/w/x.js" == "/w/x.js") :=
  ⟨(c5_ignore_matcher_semantics "/w/x.js").2.1
      (IgnoreElem.arr [IgnoreElem.str "/w/x.js"]) [IgnoreElem.str "/other"]
      (by decide),
   (c5_ignore_matcher_semantics "/w/x.js").2.2.2.2.2 "/w/x.js"⟩

/-- C6: calling the ignore mutator with the `null` sentinel first and
then two entries leaves exactly those two entries, whatever was stored
before — the default third-party pattern included — while a call
without the leading sentinel appends its arguments to the stored
list. -/
theorem c6_ignore_reset_and_append :
    (∀ (prior : List (Option IgnoreElem)) (a b : IgnoreElem),
        reqmon_ignore prior [none, some a, some b] = [some a, some b]) ∧
    (∀ (prior args : List (Option IgnoreElem)), args.head? ≠ some none →
        reqmon_ignore prior args = prior ++ args) := by
  constructor
  · intro prior a b
    rfl
  · intro prior args h
    match args with
    | [] => simp [reqmon_ignore]
    | some x :: rest => simp [reqmon_ignore]
    | none :: rest => exact absurd rfl h

/-- C6, witness: resetting over a non-empty prior list (the default
pattern modelled by a stored entry) and a plain append. -/
theorem c6_ignore_witness :
    reqmon_ignore [some (IgnoreElem.str "/old.js")]
        [none, some (IgnoreElem.str "a"), some (IgnoreElem.str "b")] =
      [some (IgnoreElem.str "a"), some (IgnoreElem.str "b")] ∧
    reqmon_ignore [some (IgnoreElem.str "p")] [some (IgnoreElem.str "q")] =
      [some (IgnoreElem.str "p"), some (IgnoreElem.str "q")] :=
  ⟨c6_ignore_reset_and_append.1 [some (IgnoreElem.str "/old.js")]
      (IgnoreElem.str "a") (IgnoreElem.str "b"),
   c6_ignore_reset_and_append.2 [some (IgnoreElem.str "p")]
      [some (IgnoreElem.str "q")] (by intro hc; simp at hc)⟩

/-- C9: the Cache Invalidator returns the value freshly produced by the
underlying loader, leaves the cache repopulated at the path with that
value, and its action trace is exactly: the pre-unload hook first when
the cached value exposes one (and only then), then the unconditional
eviction, then the delegation that re-executes the unit, then the
`loaded` notification carrying the path and the new value. -/
theorem c9_reload_sequence (env : Env) (st : RState) (rpath : String) :
    (reqmon_load env st rpath).1 = env.underlying rpath ∧
    (reqmon_load env st rpath).2.1.cache.lookup rpath =
      some (env.underlying rpath) ∧
    (reqmon_load env st rpath).2.2 =
      (if ((st.cache.lookup rpath).map Exports.hasUnloadHook).getD false then
          [Action.unloadHook rpath]
        else []) ++
        [Action.evict rpath, Action.underlyingLoad rpath,
         Action.emitLoaded rpath (env.underlying rpath)] := by
  refine ⟨rfl, ?_, ?_⟩
  · show List.lookup rpath ((rpath, env.underlying rpath) :: _) = _
    simp [List.lookup]
  · cases hv : st.cache.lookup rpath with
    | none => simp [reqmon_load, hv]
    | some e =>
      cases he : e.hasUnloadHook
      · simp [reqmon_load, hv, he]
      · simp [reqmon_load, hv, he]

end Reqmon
